import Mathlib

/-!
Verification of the Streamy printer-status client (`src/printmon.py`,
`src/stats.py`, `src/main.py`) against its natural-language specification.

The Python code is shallowly embedded: JSON values become the inductive
`JVal` (Python floats are modelled as exact rationals `ℚ`; the IEEE rounding
of the values exercised here is exact, so this is faithful for the claims),
dictionaries become association lists with unique keys (as produced by
`json.loads`), fallible operations return `Option`/`Except`, and the
`try/except` structure of the source is mirrored by the corresponding
`Option`/`Except` plumbing.  Machine integers do not overflow in Python, so
`Int` is used directly.
-/

namespace Streamy

/-- A decoded JSON value, as produced by Python's `json.loads`.  `num` holds
Python floats as exact rationals; `int` holds Python ints. -/
inductive JVal where
  | null : JVal
  | bool : Bool → JVal
  | int : Int → JVal
  | num : ℚ → JVal
  | str : String → JVal
  | arr : List JVal → JVal
  | obj : List (String × JVal) → JVal

/-- Dictionary lookup (`data[key]` / `key in data` on a dict).  Keys coming
out of `json.loads` are unique, so first-match lookup is the dict lookup. -/
def jLookup : List (String × JVal) → String → Option JVal
  | [], _ => none
  | (k, v) :: rest, key => if k = key then some v else jLookup rest key

/-- Python truthiness (`bool(x)` / `if x:`) of a decoded JSON value. -/
def pyTruthy : JVal → Bool
  | .null => false
  | .bool b => b
  | .int n => n != 0
  | .num q => q != 0
  | .str s => s != ""
  | .arr es => !es.isEmpty
  | .obj fs => !fs.isEmpty

/-- Python `str.split(sep)` for a single-character separator, over the
character list of the string. -/
def splitOnChar (sep : Char) : List Char → List (List Char)
  | [] => [[]]
  | x :: xs =>
    if x = sep then [] :: splitOnChar sep xs
    else
      match splitOnChar sep xs with
      | [] => [[x]]
      | y :: ys => (x :: y) :: ys

/-- Whether `l` is a nonempty string of decimal digits. -/
def isDigits (l : List Char) : Bool := !l.isEmpty && l.all (·.isDigit)

/-- Numeric value of a string of decimal digits. -/
def digitsVal (l : List Char) : Nat :=
  l.foldl (fun a c => a * 10 + (c.toNat - 48)) 0

/-- Python `int(s)` on a string: an optional sign followed by decimal
digits.  (CPython additionally strips whitespace and underscores; no decoded
payload field exercised here uses those forms.) -/
def pyIntOfChars (l : List Char) : Option Int :=
  match l with
  | [] => none
  | ch :: rest =>
    if ch = '-' then
      if isDigits rest then some (-(digitsVal rest : Int)) else none
    else if ch = '+' then
      if isDigits rest then some ((digitsVal rest : Int)) else none
    else if isDigits l then some ((digitsVal l : Int)) else none

/-- Core of Python `float(s)`: optional sign then `digits`, `digits.digits`,
`digits.` or `.digits`.  (Exponent and `inf`/`nan` forms are not used by the
payload fields modelled here.) -/
def pyFloatOfCharsCore (l : List Char) : Option ℚ :=
  match splitOnChar '.' l with
  | [ip] => if isDigits ip then some ((digitsVal ip : ℚ)) else none
  | [ip, fp] =>
    if (isDigits ip || ip.isEmpty) && (isDigits fp || fp.isEmpty)
        && !(ip.isEmpty && fp.isEmpty) then
      some ((digitsVal ip : ℚ) + (digitsVal fp : ℚ) / ((10 : ℚ) ^ fp.length))
    else none
  | _ => none

/-- Python `float(s)` on a string. -/
def pyFloatOfChars (l : List Char) : Option ℚ :=
  match l with
  | [] => none
  | ch :: rest =>
    if ch = '-' then (pyFloatOfCharsCore rest).map Neg.neg
    else if ch = '+' then pyFloatOfCharsCore rest
    else pyFloatOfCharsCore l

/-- Truncation toward zero, as Python's `int()` applied to a float.  For
`q : ℚ` with positive denominator, T-division of the numerator by the
denominator truncates toward zero. -/
def pyTrunc (q : ℚ) : Int := q.num.tdiv (q.den : Int)

/-- Python `int(x)` on a decoded JSON value; `none` models the raised
`ValueError`/`TypeError`. -/
def pyInt : JVal → Option Int
  | .int n => some n
  | .bool b => some (if b then 1 else 0)
  | .num q => some (pyTrunc q)
  | .str s => pyIntOfChars s.data
  | _ => none

/-- Python `float(x)` on a decoded JSON value; `none` models the raised
`ValueError`/`TypeError`. -/
def pyFloat : JVal → Option ℚ
  | .int n => some ((n : ℚ))
  | .bool b => some (if b then 1 else 0)
  | .num q => some q
  | .str s => pyFloatOfChars s.data
  | _ => none

/-- Python `str(x)` on a decoded JSON value.  Container and float renderings
are simplified placeholders: no claim depends on `str()` of a non-scalar. -/
def pyStr : JVal → String
  | .str s => s
  | .int n => toString n
  | .bool b => if b then "True" else "False"
  | .null => "None"
  | .num q => toString q
  | .arr _ => "<list>"
  | .obj _ => "<dict>"

/-! ## goo.py data classes (`src/printmon.py`) -/

/-- `Temperature` dataclass (printmon.py line 76). -/
structure Temperature where
  uv_temp : ℚ := 0
  deriving Repr, DecidableEq

/-- `PrintInfo` dataclass (printmon.py lines 108-119). -/
structure PrintInfo where
  is_printing : Bool := false
  progress : ℚ := 0
  current_layer : Int := 0
  total_layer : Int := 0
  remain_time : Int := 0
  total_time : Int := 0
  task_id : String := ""
  task_name : String := ""
  status_code : Int := 0
  deriving Repr, DecidableEq

/-- Scan of an ordered fallback key list where the first key whose value
converts via `conv` wins and a failed conversion falls through to the next
key (the `try: x = conv(...); break; except: pass` pattern). -/
def scanConvOpt {α : Type} (conv : JVal → Option α) :
    List String → List (String × JVal) → Option α
  | [], _ => none
  | k :: ks, d =>
    match jLookup d k with
    | some v =>
      match conv v with
      | some a => some a
      | none => scanConvOpt conv ks d
    | none => scanConvOpt conv ks d

/-- Float-valued fallback scan with running default `0.0`. -/
def scanFloat (ks : List String) (d : List (String × JVal)) : ℚ :=
  (scanConvOpt pyFloat ks d).getD 0

/-- Int-valued fallback scan with running default `0`. -/
def scanInt (ks : List String) (d : List (String × JVal)) : Int :=
  (scanConvOpt pyInt ks d).getD 0

/-- String-valued fallback scan: first present key wins unconditionally
(`str()` never raises); default `""`. -/
def scanStr : List String → List (String × JVal) → String
  | [], _ => ""
  | k :: ks, d =>
    match jLookup d k with
    | some v => pyStr v
    | none => scanStr ks d

/-- The `is_printing`/`status_code` value extracted from the first present
printing key (printmon.py lines 133-145).  For the key `"Status"` a string
is compared case-insensitively against `running|printing|busy`; an integer
is stored as the raw status code with printing derived from membership in
`{1,2,3,4,7}`.  Python treats `bool` as a subtype of `int`, reflected in the
`.bool` case. -/
def printingFromVal (k : String) (v : JVal) : Bool × Int :=
  if k = "Status" then
    match v with
    | .str s => (decide (s.toLower ∈ (["running", "printing", "busy"] : List String)), 0)
    | .bool b => (b, if b then 1 else 0)
    | .int n => (decide (n ∈ ([1, 2, 3, 4, 7] : List Int)), n)
    | _ => (false, 0)
  else (pyTruthy v, 0)

/-- Fallback scan for the printing flag: the first present key wins
unconditionally (the `break` is not guarded). -/
def scanPrinting : List String → List (String × JVal) → Bool × Int
  | [], _ => (false, 0)
  | k :: ks, d =>
    match jLookup d k with
    | some v => printingFromVal k v
    | none => scanPrinting ks d

/-- Decode one remaining/total-time candidate value (printmon.py lines
182-192): a string containing `:` is split and read as `hh:mm:ss` or
`mm:ss`; otherwise `int()` is applied.  `cur` is the running value, kept on
a caught conversion error or on a `:`-string with an unexpected number of
parts. -/
def parseTimePiece (cur : Int) (v : JVal) : Int :=
  match v with
  | .str s =>
    if ':' ∈ s.data then
      match splitOnChar ':' s.data with
      | [a, b, c] =>
        match pyIntOfChars a, pyIntOfChars b, pyIntOfChars c with
        | some h, some m, some sec => h * 3600 + m * 60 + sec
        | _, _, _ => cur
      | [a, b] =>
        match pyIntOfChars a, pyIntOfChars b with
        | some m, some sec => m * 60 + sec
        | _, _ => cur
      | _ => cur
    else
      match pyInt (.str s) with
      | some n => n
      | none => cur
  | v =>
    match pyInt v with
    | some n => n
    | none => cur

/-- Fallback scan for the time fields (printmon.py lines 178-217): the scan
only stops once the running value is positive (`if remain_time > 0: break`),
so a key decoding to zero or a negative value lets the scan continue. -/
def scanTime (cur : Int) : List String → List (String × JVal) → Int
  | [], _ => cur
  | k :: ks, d =>
    match jLookup d k with
    | some v =>
      let r := parseTimePiece cur v
      if 0 < r then r else scanTime r ks d
    | none => scanTime cur ks d

/-- Candidate keys for the remaining-time field, in source order. -/
def remainKeys : List String :=
  ["RemainTime", "TimeLeft", "remain_time", "RemainingTime", "TimeRemaining",
   "PrintTimeLeft", "LeftTime", "remainTime", "leftTime"]

/-- Candidate keys for the total-time field, in source order. -/
def totalKeys : List String :=
  ["TotalTime", "total_time", "TotalPrintTime", "PrintTime", "PrintDuration",
   "EstimatedTime", "totalTime", "printTime"]

/-- Millisecond-tick fallback for the total time (printmon.py lines
220-224): applies only while the total is still zero; `//` is Python floor
division. -/
def ticksTotal (d : List (String × JVal)) (total0 : Int) : Int :=
  if total0 = 0 then
    match jLookup d "TotalTicks" with
    | some v =>
      match pyInt v with
      | some n => n.fdiv 1000
      | none => total0
    | none => total0
  else total0

/-- Millisecond-tick fallback for the remaining time (printmon.py lines
226-232): applies only while the remaining time is still zero and both tick
fields are present and convert. -/
def ticksRemain (d : List (String × JVal)) (remain0 : Int) : Int :=
  if remain0 = 0 then
    match jLookup d "TotalTicks", jLookup d "CurrentTicks" with
    | some tv, some cv =>
      match pyInt tv with
      | some t =>
        match pyInt cv with
        | some c => (t - c).fdiv 1000
        | none => remain0
      | none => remain0
    | _, _ => remain0
  else remain0

/-- `PrintInfo.from_dict` (printmon.py lines 121-258) on a dict payload. -/
def printInfoFromFields (d : List (String × JVal)) : PrintInfo :=
  let ip := scanPrinting ["IsPrinting", "Printing", "isPrinting", "is_printing", "Status"] d
  let progress := scanFloat ["Progress", "progress", "PrintProgress", "print_progress", "Percent"] d
  let current_layer := scanInt ["CurrentLayer", "Layer", "current_layer", "CurrentLine", "LineNum", "Layers"] d
  let total_layer := scanInt ["TotalLayer", "TotalLayers", "MaxLayer", "Lines", "total_layers", "Slices"] d
  let remain0 := scanTime 0 remainKeys d
  let total0 := scanTime 0 totalKeys d
  let total_time := ticksTotal d total0
  let remain_time := ticksRemain d remain0
  let task_id := scanStr ["TaskID", "task_id", "JobID", "PrintID"] d
  let task_name := scanStr ["TaskName", "task_name", "FileName", "JobName", "PrintName"] d
  { is_printing := ip.1
    progress := progress
    current_layer := current_layer
    total_layer := total_layer
    remain_time := remain_time
    total_time := total_time
    task_id := task_id
    task_name := task_name
    status_code := ip.2 }

/-- Candidate direct keys for the UV temperature, in source order
(printmon.py line 85). -/
def tempKeys : List String :=
  ["UVTemp", "UV", "uv_temp", "UVTemperature", "LightTemp", "UVPanelTemp", "UVPanel"]

/-- Nested UV-temperature probe (printmon.py lines 94-103): for each parent
key holding a dict, the first child key that converts overwrites the running
value; the outer loop has no break, so a later parent overwrites an earlier
one. -/
def tempNested (d : List (String × JVal)) (u0 : ℚ) : ℚ :=
  (["UV", "UVPanel", "Light"] : List String).foldl
    (fun u p =>
      match jLookup d p with
      | some (.obj pf) =>
        (scanConvOpt pyFloat ["Temp", "Temperature", "Value", "Current"] pf).getD u
      | _ => u)
    u0

/-- `Temperature.from_dict` (printmon.py lines 80-105) on a dict payload:
direct fallback keys first; if the result is still `0.0`, probe one level
deeper. -/
def temperatureFromFields (d : List (String × JVal)) : Temperature :=
  let u0 := scanFloat tempKeys d
  ⟨if u0 = 0 then tempNested d u0 else u0⟩

/-! ## PrinterStatus.from_json (printmon.py lines 261-335) -/

/-- `PrinterStatus` dataclass (printmon.py lines 261-268). -/
structure PrinterStatus where
  temperature : Temperature := {}
  print_info : PrintInfo := {}
  status_code : Int := 0
  status_text : String := "Unknown"
  raw_data : JVal := .obj []

/-- Whether one character list occurs contiguously inside another. -/
def leadsWith : List Char → List Char → Bool
  | [], _ => true
  | _ :: _, [] => false
  | a :: as, b :: bs => a = b && leadsWith as bs

/-- Substring test used by Python's `in` on strings. -/
def hasSub (needle : List Char) : List Char → Bool
  | [] => needle.isEmpty
  | l@(_ :: t) => leadsWith needle l || hasSub needle t

/-- Python `key in x` on a decoded JSON value: key lookup on dicts, element
equality on lists (a string key only ever equals a string element),
substring test on strings; `TypeError` (modelled as `.error`) otherwise. -/
def jContains (key : String) : JVal → Except Unit Bool
  | .obj fs => .ok ((jLookup fs key).isSome)
  | .arr es => .ok (es.any (fun e => match e with | .str s => s = key | _ => false))
  | .str s => .ok (hasSub key.data s.data)
  | _ => .error ()

/-- Python `x[key]` on a decoded JSON value: only dicts support string
indexing; anything else raises `TypeError` (`.error`).  (A `KeyError` on a
dict is also `.error`; the source only indexes after an `in` guard.) -/
def jIndex (key : String) : JVal → Except Unit JVal
  | .obj fs =>
    match jLookup fs key with
    | some v => .ok v
    | none => .error ()
  | _ => .error ()

/-- Whether a decoded JSON value is a Python dict (`isinstance(x, dict)`). -/
def isObj : JVal → Bool
  | .obj _ => true
  | _ => false

/-- `if k in o and isinstance(o[k], dict): acc = o[k]` for a dict `o`:
returns the new running container. -/
def pickObjField (o : JVal) (k : String) (acc : JVal) : JVal :=
  match o with
  | .obj fs =>
    match jLookup fs k with
    | some w => if isObj w then w else acc
    | none => acc
  | _ => acc

/-- Container-selection pass of `PrinterStatus.from_json` for one family of
nested keys (`innerKeys`): mirrors printmon.py lines 281-315.  `data` is the
decoded message body; `withDataOption2` distinguishes the print-info family
(which reads `data["Data"]` via the `Data`/nested-`Data` options) from the
temperature family (same code path, different inner key).  Returns the
selected container, `{}` (`.obj []`) when nothing matched, or `.error` when
the Python code would raise (caught further up by `from_json`). -/
def selectContainer (nestedKey : String) (innerKeys : List String)
    (data : JVal) : Except Unit JVal := do
  let acc0 : JVal := .obj []
  -- Options 1 and 2: the "Data" wrapper (lines 281-295).
  let hasData ← jContains "Data" data
  let acc1 ←
    if hasData then do
      let dv ← jIndex "Data" data
      let hasDD ← jContains "Data" dv
      let c1 ←
        if hasDD then do
          let ddv ← jIndex "Data" dv
          pure (isObj ddv)
        else pure false
      if c1 then do
        let ddv ← jIndex "Data" dv
        pure (pickObjField ddv nestedKey acc0)
      else if isObj dv then
        pure (pickObjField dv nestedKey acc0)
      else pure acc0
    else pure acc0
  -- Option 3: alternate container keys (lines 298-306); no break, later
  -- matches overwrite earlier ones.
  let acc2 ← (["StatusData", "Status", "PrintStatus", "state"] : List String).foldlM
    (fun acc sk => do
      let present ← jContains sk data
      if present then do
        let sv ← jIndex sk data
        if isObj sv then
          pure (innerKeys.foldl (fun a k => pickObjField sv k a) acc)
        else pure acc
      else pure acc)
    acc1
  -- Option 4: direct top-level keys (lines 309-315); again later matches
  -- overwrite earlier ones.
  innerKeys.foldlM
    (fun acc pk => do
      let present ← jContains pk data
      if present then do
        let pv ← jIndex pk data
        if isObj pv then pure pv else pure acc
      else pure acc)
    acc2

/-- Print-info container selection of `from_json`, including the last-resort
direct-field fallback (printmon.py lines 319-322), which applies only when
the running container is falsy. -/
def selectPrintInfoData (data : JVal) : Except Unit JVal := do
  let acc ← selectContainer "PrintInfo" ["PrintInfo", "PrintStatus", "print", "Print"] data
  if pyTruthy acc then
    pure acc
  else do
    let b1 ← jContains "IsPrinting" data
    let b2 ← jContains "Progress" data
    let b3 ← jContains "CurrentLayer" data
    let b4 ← jContains "TotalLayer" data
    if b1 || b2 || b3 || b4 then pure data else pure acc

/-- Temperature container selection of `from_json` (no direct-field
fallback). -/
def selectTempData (data : JVal) : Except Unit JVal :=
  selectContainer "Temperature" ["Temperature", "Temps", "temp", "temperature"] data

/-- `PrintInfo.from_dict` on an arbitrary selected container.  Non-dict
containers can reach it through the direct-field fallback: a falsy one
(empty list or empty string) decodes every field to its default, a truthy
one raises (`list(data.keys())` in the debug log, `field in data` on
non-containers), which `from_json` catches. -/
def printInfoFromDict : JVal → Except Unit PrintInfo
  | .obj fs => .ok (printInfoFromFields fs)
  | .arr [] => .ok {}
  | .str "" => .ok {}
  | _ => .error ()

/-- `Temperature.from_dict` on a selected container.  The selection logic
only ever yields a dict here (containers are isinstance-guarded and the
initial value is `{}`), so non-dicts are modelled as an error. -/
def temperatureFromDict : JVal → Except Unit Temperature
  | .obj fs => .ok (temperatureFromFields fs)
  | _ => .error ()

/-- `PrinterStatus.from_json` (printmon.py lines 270-335) on the decoded
message body.  Any exception inside the selection or the field decoding is
caught and yields the default status object (lines 331-335). -/
def printerStatusFromJson (data : JVal) : PrinterStatus :=
  match (do
    let p ← selectPrintInfoData data
    let t ← selectTempData data
    let te ← temperatureFromDict t
    let pi ← printInfoFromDict p
    pure { temperature := te, print_info := pi, raw_data := data : PrinterStatus }) with
  | .ok s => s
  | .error _ => {}

/-! ## Inbound message dispatch (printmon.py lines 587-638) -/

/-- `PrinterData` dataclass (printmon.py lines 338-342). -/
structure PrinterData where
  status : PrinterStatus := {}
  last_updated : String := ""

/-- `_status_handler` (printmon.py lines 621-638): stores the freshly parsed
status and stamps `last_updated` with the current wall-clock string `now`
(time is passed in explicitly). -/
def statusHandler (now : String) (data : JVal) (_st : PrinterData) : PrinterData :=
  { status := printerStatusFromJson data, last_updated := now }

/-- `_parse_response` (printmon.py lines 587-615) applied to one inbound
message.  `none` models text that is not valid JSON (`json.JSONDecodeError`
is caught: the message is dropped and the state is unchanged).  Every other
exception is also caught (lines 614-615), so the handler is total and the
receive loop survives any input. -/
def parseResponse (now : String) (st : PrinterData) (msg : Option JVal) : PrinterData :=
  match msg with
  | none => st
  | some data =>
    match data with
    | .obj fs =>
      let fallback :=
        if ((jLookup fs "Data").isSome || (jLookup fs "StatusData").isSome
            || (jLookup fs "PrintInfo").isSome) then
          statusHandler now data st
        else st
      match jLookup fs "Topic" with
      | some topic =>
        if pyTruthy topic then
          match topic with
          | .str s =>
            let parts := splitOnChar '/' s.data
            let topicType := if 1 < parts.length then String.mk (parts.getD 1 []) else ""
            if topicType = "status" then statusHandler now data st
            else st
          | _ => st
        else fallback
      | none => fallback
    | _ => st

/-! ## Discovery reply parsing (printmon.py lines 483-534, stats.py lines
512-556) -/

/-- `Printer` dataclass (printmon.py lines 47-72).  `self.ip_address` being
`None` is modelled as the empty string; the two coincide under every
truthiness test the source applies to it. -/
structure Printer where
  info : String := ""
  id : String := ""
  name : String := ""
  ip_address : String := ""
  model : String := ""
  firmware : String := ""
  connection : String := ""
  deriving Repr, DecidableEq

/-- The synthesized fallback identity used when discovery yields nothing. -/
def fallbackPrinter (selfIp : String) : Printer :=
  { name := "Elegoo Printer", ip_address := selfIp, id := "ElegooPrinter",
    connection := "ElegooPrinterAPI" }

/-- Shared body of `_save_discovered_printer` in both clients, applied to a
successfully decoded reply string: split on `|` when present and map
positions 0..4 onto id, name, address, model, firmware (positions beyond
the field count are left empty); without a `|` fall back to a synthetic
identity; an empty address falls back to the requested one. -/
def parsedPrinter (selfIp : String) (s : String) : Printer :=
  let p1 : Printer :=
    if '|' ∈ s.data then
      let parts := splitOnChar '|' s.data
      if 3 ≤ parts.length then
        { id := String.mk (parts.getD 0 [])
          name := String.mk (parts.getD 1 [])
          ip_address := String.mk (parts.getD 2 [])
          model := if 4 ≤ parts.length then String.mk (parts.getD 3 []) else ""
          firmware := if 5 ≤ parts.length then String.mk (parts.getD 4 []) else "" }
      else {}
    else
      { name := "Elegoo Printer", ip_address := selfIp, id := "ElegooPrinter" }
  let p2 := if p1.ip_address = "" then { p1 with ip_address := selfIp } else p1
  { p2 with connection := "ElegooPrinterAPI" }

/-- `PrinterMonitor._save_discovered_printer` (printmon.py lines 483-534).
The argument is the UTF-8 decoding outcome of the reply datagram (`none`
models a `UnicodeDecodeError`).  On a decode failure the exception is caught
and the function still returns the fallback printer (lines 527-534): it
never returns `None`. -/
def saveDiscoveredPrinterMon (selfIp : String) (data : Option String) : Printer :=
  match data with
  | some s => parsedPrinter selfIp s
  | none => fallbackPrinter selfIp

/-- `ElegooPrinterClient._save_discovered_printer` (stats.py lines 512-556):
identical parsing, but a decode failure falls through to `return None`. -/
def saveDiscoveredPrinterStats (selfIp : String) (data : Option String) :
    Option Printer :=
  match data with
  | some s => some (parsedPrinter selfIp s)
  | none => none

/-! ## Connect state machine (printmon.py lines 357-438, 536-585) -/

/-- The mutable fields of `PrinterMonitor` (printmon.py lines 360-368) that
the connect path touches.  The websocket handle carries no observable
structure here, so it is modelled as `Option Unit`. -/
structure MonState where
  ip_address : Option String := none
  is_connected : Bool := false
  printer_websocket : Option Unit := none
  printer : Printer := {}
  printer_data : PrinterData := {}
  simulated_mode : Bool := false

/-- `PrinterMonitor.connect_printer` (printmon.py lines 536-585).  The
websocket machinery and the 5-second polling wait are abstracted into the
single oracle `opened`: whether the open handshake completed within the
bound.  On success the monitor is connected and keeps the handle; on timeout
the handle is dropped (`self.printer_websocket = None`), `is_connected` is
left untouched, and `False` is returned. -/
def connectPrinter (opened : Bool) (st : MonState) : Bool × MonState :=
  let st1 := { st with printer_websocket := some () }
  if opened then (true, { st1 with is_connected := true })
  else (false, { st1 with printer_websocket := none })

/-- The synthetic status installed by the simulated-mode fallback
(printmon.py lines 426-434). -/
def simulatedStatus : PrinterStatus :=
  { status_code := 1
    status_text := "Printing"
    print_info :=
      { is_printing := true, current_layer := 64, total_layer := 341,
        progress := (188 : ℚ) / 10 } }

/-- `PrinterMonitor.connect` (printmon.py lines 375-438).  `disc` is the
discovery outcome (`none` covers both a failed discovery and a raised
discovery error, which install the same fallback identity); `opened` is the
handshake oracle passed to `connect_printer`; `now` is the wall-clock
string.  A missing or empty address (both falsy in Python) aborts with
`False`.  Crucially, when `connect_printer` fails the method does **not**
report failure: it falls back to simulated mode (lines 420-438), sets
`is_connected = True` and returns `True`. -/
def connect (disc : Option Printer) (opened : Bool) (now : String)
    (st : MonState) : Bool × MonState :=
  match st.ip_address with
  | none => (false, st)
  | some ip =>
    if ip = "" then (false, st) else
    let pr := match disc with
      | some p => p
      | none => fallbackPrinter ip
    let st1 := { st with printer := pr }
    let res := connectPrinter opened st1
    if res.1 then
      (true, { res.2 with
                printer_data := { res.2.printer_data with last_updated := now } })
    else
      (true, { res.2 with
                simulated_mode := true
                is_connected := true
                printer_data := { status := simulatedStatus, last_updated := now } })

/-! ## Status display derivations (main.py lines 763-848) -/

/-- Coarse status text derived from the raw status code
(main.py lines 776-787). -/
def statusTextOfCode (c : Int) : String :=
  if c = 0 ∨ c = 8 then "Idle"
  else if c = 1 then "Preparing to print"
  else if c = 2 ∨ c = 3 ∨ c = 4 then "Printing"
  else if c = 7 then "Finishing"
  else "Unknown"

/-- The progress value the UI computes (main.py lines 794-799): derived from
the layer counters — the record's own `progress` field is not consulted —
then clamped to `[0, 100]`. -/
def uiProgress (p : PrintInfo) : ℚ :=
  let raw : ℚ :=
    if 0 < p.total_layer then ((p.current_layer : ℚ) / (p.total_layer : ℚ)) * 100
    else 0
  max 0 (min 100 raw)

/-- The remaining/total time pair after the mutual derivation of main.py
lines 817-828, as `some (total, remain)`; `none` models the
`ZeroDivisionError` raised by the total-time derivation when the progress
equals 100 (the guard only requires `progress > 0`). -/
def deriveTimes (p : PrintInfo) : Option (Int × Int) :=
  let prog := uiProgress p
  let t := p.total_time
  let r := p.remain_time
  let r1 := if 0 < t ∧ r = 0 ∧ 0 < prog
    then pyTrunc ((t : ℚ) * ((100 : ℚ) - prog) / 100) else r
  if 0 < r1 ∧ t = 0 ∧ 0 < prog then
    if (100 : ℚ) - prog = 0 then none
    else some (pyTrunc ((r1 : ℚ) * 100 / ((100 : ℚ) - prog)), r1)
  else some (t, r1)

/-- The time pair `update_printer_status_ui` ends up displaying: the derived
pair while a print is active, and the cleared pair otherwise (a value `≤ 0`
is rendered as `--`, which is how the inactive branch clears both labels). -/
def displayTimes (p : PrintInfo) : Option (Int × Int) :=
  if p.is_printing then deriveTimes p else some (0, 0)

/-! ## Helper lemmas -/

theorem splitOnChar_of_not_mem (sep : Char) (l : List Char) (h : sep ∉ l) :
    splitOnChar sep l = [l] := by
  induction l with
  | nil => rfl
  | cons x xs ih =>
    have hx : x ≠ sep := fun hxs => h (hxs ▸ List.mem_cons_self x xs)
    have hxs : sep ∉ xs := fun hm => h (List.mem_cons_of_mem _ hm)
    simp only [splitOnChar, if_neg hx, ih hxs]

theorem splitOnChar_append (sep : Char) (l r : List Char) (h : sep ∉ l) :
    splitOnChar sep (l ++ sep :: r) = l :: splitOnChar sep r := by
  induction l with
  | nil => simp [splitOnChar]
  | cons x xs ih =>
    have hx : x ≠ sep := fun hxs => h (hxs ▸ List.mem_cons_self x xs)
    have hxs : sep ∉ xs := fun hm => h (List.mem_cons_of_mem _ hm)
    simp only [List.cons_append, splitOnChar, if_neg hx]
    rw [show xs.append (sep :: r) = xs ++ sep :: r from rfl, ih hxs]

theorem pyIntOfChars_digits (l : List Char) (h : isDigits l = true) :
    pyIntOfChars l = some ((digitsVal l : Int)) := by
  match l with
  | [] => simp [isDigits] at h
  | ch :: rest =>
    have hch : ch.isDigit = true := by
      have := (List.all_eq_true.mp (Bool.and_elim_right h)) ch (List.mem_cons_self _ _)
      simpa using this
    have h1 : ch ≠ '-' := by intro hc; rw [hc] at hch; simp [Char.isDigit] at hch
    have h2 : ch ≠ '+' := by intro hc; rw [hc] at hch; simp [Char.isDigit] at hch
    simp only [pyIntOfChars, if_neg h1, if_neg h2, if_pos h]

theorem colon_not_mem_of_digits (l : List Char) (h : isDigits l = true) :
    ':' ∉ l := by
  intro hm
  have := (List.all_eq_true.mp (Bool.and_elim_right h)) ':' hm
  simp [Char.isDigit] at this

theorem exceptOkBind {ε α β : Type} (a : α) (f : α → Except ε β) :
    (Except.ok (ε := ε) a >>= f) = f a := rfl

theorem exceptPureEq {ε α : Type} (a : α) : (pure a : Except ε α) = Except.ok a := rfl

/-! ## Claim theorems -/

/-- C4: for a print-info payload whose remaining-time value is the string
`hh:mm:ss` and whose total-time value is the string `mm:ss` (digit groups,
decoding to positive totals so the matched key wins the scan), the decoded
seconds are `h*3600 + m*60 + s` and `m*60 + s` respectively. -/
theorem c4_clock_string_decode
    (d : List (String × JVal)) (a b c m s : List Char)
    (ha : isDigits a = true) (hb : isDigits b = true) (hc : isDigits c = true)
    (hm : isDigits m = true) (hs : isDigits s = true)
    (hr : jLookup d "RemainTime"
        = some (.str (String.mk (a ++ ':' :: (b ++ ':' :: c)))))
    (ht : jLookup d "TotalTime" = some (.str (String.mk (m ++ ':' :: s))))
    (hrpos : 0 < (digitsVal a : Int) * 3600 + (digitsVal b : Int) * 60 + (digitsVal c : Int))
    (htpos : 0 < (digitsVal m : Int) * 60 + (digitsVal s : Int)) :
    (printInfoFromFields d).remain_time
        = (digitsVal a : Int) * 3600 + (digitsVal b : Int) * 60 + (digitsVal c : Int)
      ∧ (printInfoFromFields d).total_time
        = (digitsVal m : Int) * 60 + (digitsVal s : Int) := by
  have hmem3 : ':' ∈ a ++ ':' :: (b ++ ':' :: c) := by simp
  have hmem2 : ':' ∈ m ++ ':' :: s := by simp
  have hsplit3 : splitOnChar ':' (a ++ ':' :: (b ++ ':' :: c)) = [a, b, c] := by
    rw [splitOnChar_append ':' a _ (colon_not_mem_of_digits a ha),
        splitOnChar_append ':' b _ (colon_not_mem_of_digits b hb),
        splitOnChar_of_not_mem ':' c (colon_not_mem_of_digits c hc)]
  have hsplit2 : splitOnChar ':' (m ++ ':' :: s) = [m, s] := by
    rw [splitOnChar_append ':' m _ (colon_not_mem_of_digits m hm),
        splitOnChar_of_not_mem ':' s (colon_not_mem_of_digits s hs)]
  have hval3 : parseTimePiece 0 (.str (String.mk (a ++ ':' :: (b ++ ':' :: c))))
      = (digitsVal a : Int) * 3600 + (digitsVal b : Int) * 60 + (digitsVal c : Int) := by
    simp only [parseTimePiece, if_pos hmem3, hsplit3, pyIntOfChars_digits a ha,
      pyIntOfChars_digits b hb, pyIntOfChars_digits c hc]
  have hval2 : parseTimePiece 0 (.str (String.mk (m ++ ':' :: s)))
      = (digitsVal m : Int) * 60 + (digitsVal s : Int) := by
    simp only [parseTimePiece, if_pos hmem2, hsplit2, pyIntOfChars_digits m hm,
      pyIntOfChars_digits s hs]
  have hscanR : scanTime 0 remainKeys d
      = (digitsVal a : Int) * 3600 + (digitsVal b : Int) * 60 + (digitsVal c : Int) := by
    simp only [remainKeys, scanTime, hr, hval3, if_pos hrpos]
  have hscanT : scanTime 0 totalKeys d
      = (digitsVal m : Int) * 60 + (digitsVal s : Int) := by
    simp only [totalKeys, scanTime, ht, hval2, if_pos htpos]
  constructor
  · simp only [printInfoFromFields, hscanR, ticksRemain]
    rw [if_neg (show ¬((digitsVal a : Int) * 3600 + (digitsVal b : Int) * 60
          + (digitsVal c : Int) = 0) by omega)]
  · simp only [printInfoFromFields, hscanT, ticksTotal]
    rw [if_neg (show ¬((digitsVal m : Int) * 60 + (digitsVal s : Int) = 0) by omega)]

/-- Witness for C4 at a concrete payload: `"1:02:03"` decodes to 3723
seconds and `"10:30"` to 630. -/
theorem c4_clock_string_decode_witness :
    (printInfoFromFields
        [("RemainTime", JVal.str "1:02:03"), ("TotalTime", JVal.str "10:30")]).remain_time
        = 3723
      ∧ (printInfoFromFields
          [("RemainTime", JVal.str "1:02:03"), ("TotalTime", JVal.str "10:30")]).total_time
        = 630 := by
  have h := c4_clock_string_decode
    [("RemainTime", JVal.str "1:02:03"), ("TotalTime", JVal.str "10:30")]
    ['1'] ['0', '2'] ['0', '3'] ['1', '0'] ['3', '0']
    (by decide) (by decide) (by decide) (by decide) (by decide)
    rfl rfl (by decide) (by decide)
  exact ⟨by rw [h.1]; decide, by rw [h.2]; decide⟩

/-- C5: a payload whose `Status` field holds an integer and which contains
none of the earlier boolean printing keys stores the integer as the raw
status code and derives `is_printing` from membership in `{1,2,3,4,7}`; for
codes 0 and 8 the printing flag is false and the UI's coarse status text is
`Idle`. -/
theorem c5_status_code_printing
    (d : List (String × JVal)) (n : Int)
    (h1 : jLookup d "IsPrinting" = none) (h2 : jLookup d "Printing" = none)
    (h3 : jLookup d "isPrinting" = none) (h4 : jLookup d "is_printing" = none)
    (h5 : jLookup d "Status" = some (.int n)) :
    (printInfoFromFields d).status_code = n
      ∧ ((printInfoFromFields d).is_printing = true
          ↔ (n = 1 ∨ n = 2 ∨ n = 3 ∨ n = 4 ∨ n = 7))
      ∧ ((n = 0 ∨ n = 8) → (printInfoFromFields d).is_printing = false
          ∧ statusTextOfCode n = "Idle") := by
  have hscan : scanPrinting ["IsPrinting", "Printing", "isPrinting", "is_printing", "Status"] d
      = (decide (n ∈ ([1, 2, 3, 4, 7] : List Int)), n) := by
    simp [scanPrinting, h1, h2, h3, h4, h5, printingFromVal]
  refine ⟨by simp only [printInfoFromFields, hscan], ?_, ?_⟩
  · simp only [printInfoFromFields, hscan]
    simp [List.mem_cons]
  · rintro (rfl | rfl) <;>
      exact ⟨by simp only [printInfoFromFields, hscan]; decide, by decide⟩

/-- Witness for C5: `Status = 2` with no boolean printing key yields
`is_printing = true` with raw code 2, and `Status = 0` yields
`is_printing = false` with coarse status `Idle`. -/
theorem c5_status_code_printing_witness :
    ((printInfoFromFields [("Status", JVal.int 2)]).is_printing = true
        ∧ (printInfoFromFields [("Status", JVal.int 2)]).status_code = 2)
      ∧ ((printInfoFromFields [("Status", JVal.int 0)]).is_printing = false
        ∧ statusTextOfCode 0 = "Idle") := by
  have h2 := c5_status_code_printing [("Status", JVal.int 2)] 2 rfl rfl rfl rfl rfl
  have h0 := c5_status_code_printing [("Status", JVal.int 0)] 0 rfl rfl rfl rfl rfl
  exact ⟨⟨h2.2.1.mpr (by decide), h2.1⟩, h0.2.2 (Or.inl rfl)⟩

/-- C8 counterexample: in the payload `{"RemainTime": 0, "TimeLeft": 100}`
the first present key `RemainTime` yields a well-formed 0, yet the scan
continues and the later key `TimeLeft` determines `remain_time = 100` —
refuting the claim that a well-formed 0 stops the scan. -/
theorem c8_counterexample :
    (printInfoFromFields [("RemainTime", JVal.int 0), ("TimeLeft", JVal.int 100)]).remain_time
        = 100
      ∧ (100 : Int) ≠ 0 := by
  constructor
  · rfl
  · decide

/-- C8 amended: `remain_time` is determined by the first key in the ordered
fallback list whose value parses to a **positive** number; a present key
parsing to zero (just like a malformed one) lets the scan continue to the
next candidate key. -/
theorem c8_zero_continues_scan
    (d : List (String × JVal)) (k : Int)
    (h0 : jLookup d "RemainTime" = some (.int 0))
    (h1 : jLookup d "TimeLeft" = some (.int k))
    (hk : 0 < k) :
    (printInfoFromFields d).remain_time = k := by
  have hscan : scanTime 0 remainKeys d = k := by
    simp only [remainKeys, scanTime, h0, h1, parseTimePiece, pyInt]
    rw [if_neg (by omega : ¬ (0 : Int) < 0), if_pos hk]
  simp only [printInfoFromFields, hscan, ticksRemain]
  rw [if_neg (by omega : ¬ k = 0)]

/-- Witness for C8 amended at the counterexample payload. -/
theorem c8_zero_continues_scan_witness :
    (printInfoFromFields [("RemainTime", JVal.int 0), ("TimeLeft", JVal.int 100)]).remain_time
      = 100 :=
  c8_zero_continues_scan [("RemainTime", JVal.int 0), ("TimeLeft", JVal.int 100)]
    100 rfl rfl (by decide)

/-- C9 counterexample: in the payload
`{"RemainTime": 100, "TotalTicks": 600000, "CurrentTicks": 150000}` the
total time is still zero after the key-list decoding (no total-time key is
present; the ticks then set it to 600), yet `remain_time` stays at the
explicit 100 instead of the claimed `(600000 - 150000) / 1000 = 450`: the
tick derivation is guarded by `remain_time == 0`, not by the total. -/
theorem c9_counterexample :
    (printInfoFromFields
        [("RemainTime", JVal.int 100), ("TotalTicks", JVal.int 600000),
         ("CurrentTicks", JVal.int 150000)]).remain_time = 100
      ∧ (printInfoFromFields
          [("RemainTime", JVal.int 100), ("TotalTicks", JVal.int 600000),
           ("CurrentTicks", JVal.int 150000)]).total_time = 600
      ∧ (100 : Int) ≠ 450 := by
  refine ⟨rfl, rfl, by decide⟩

/-- C9 amended: when `remain_time` (not the total) is still zero after the
key-list decoding and both tick fields convert to integers, the decoded
`remain_time` is `(TotalTicks - CurrentTicks) // 1000` (Python floor
division). -/
theorem c9_ticks_remain
    (d : List (String × JVal)) (t c : Int)
    (hscan : scanTime 0 remainKeys d = 0)
    (ht : jLookup d "TotalTicks" = some (.int t))
    (hc : jLookup d "CurrentTicks" = some (.int c)) :
    (printInfoFromFields d).remain_time = (t - c).fdiv 1000 := by
  simp only [printInfoFromFields, ticksRemain, hscan, ht, hc, pyInt, if_true]

/-- Witness for C9 amended: `TotalTicks = 600000`, `CurrentTicks = 150000`
and no explicit remain-time field yield `remain_time = 450`. -/
theorem c9_ticks_remain_witness :
    (printInfoFromFields
        [("TotalTicks", JVal.int 600000), ("CurrentTicks", JVal.int 150000)]).remain_time
      = 450 := by
  have h := c9_ticks_remain
    [("TotalTicks", JVal.int 600000), ("CurrentTicks", JVal.int 150000)]
    600000 150000 (by decide) rfl rfl
  rw [h]; decide

/-- C2 counterexample: a body carrying both a doubly-nested
`Data.Data.PrintInfo` (with `Progress = 1`) and a direct top-level
`PrintInfo` (with `Progress = 2`) is normalized from the **top-level**
container — the decoded progress is 2, not the 1 the first container in the
specified order would give. -/
theorem c2_counterexample :
    (printerStatusFromJson (JVal.obj
        [("Data", JVal.obj [("Data", JVal.obj
            [("PrintInfo", JVal.obj [("Progress", JVal.int 1)])])]),
         ("PrintInfo", JVal.obj [("Progress", JVal.int 2)])])).print_info.progress = 2
      ∧ (printInfoFromFields [("Progress", JVal.int 1)]).progress = 1
      ∧ (2 : ℚ) ≠ 1 := by
  refine ⟨rfl, rfl, by norm_num⟩

/-- C2 amended: when several supported container shapes hold a print-info
dict, the **last** matching container in scan order wins (a direct top-level
key overrides the alternate container keys, which override the nested
`Data` containers); the print-info and temperature containers are still
selected independently and may differ, as here: print-info comes from the
top level while the temperature stays with the doubly-nested container. -/
theorem c2_last_container_wins
    (p1 p2 t1 : List (String × JVal)) (hp2 : p2 ≠ []) :
    selectPrintInfoData (JVal.obj
        [("Data", JVal.obj [("Data", JVal.obj
            [("PrintInfo", JVal.obj p1), ("Temperature", JVal.obj t1)])]),
         ("PrintInfo", JVal.obj p2)]) = .ok (JVal.obj p2)
      ∧ selectTempData (JVal.obj
          [("Data", JVal.obj [("Data", JVal.obj
              [("PrintInfo", JVal.obj p1), ("Temperature", JVal.obj t1)])]),
           ("PrintInfo", JVal.obj p2)]) = .ok (JVal.obj t1)
      ∧ printerStatusFromJson (JVal.obj
          [("Data", JVal.obj [("Data", JVal.obj
              [("PrintInfo", JVal.obj p1), ("Temperature", JVal.obj t1)])]),
           ("PrintInfo", JVal.obj p2)])
        = { temperature := temperatureFromFields t1
            print_info := printInfoFromFields p2
            raw_data := JVal.obj
              [("Data", JVal.obj [("Data", JVal.obj
                  [("PrintInfo", JVal.obj p1), ("Temperature", JVal.obj t1)])]),
               ("PrintInfo", JVal.obj p2)] } := by
  have htr : pyTruthy (JVal.obj p2) = true := by
    cases p2 with
    | nil => exact absurd rfl hp2
    | cons x xs => simp [pyTruthy]
  have hsel : selectContainer "PrintInfo" ["PrintInfo", "PrintStatus", "print", "Print"]
      (JVal.obj
        [("Data", JVal.obj [("Data", JVal.obj
            [("PrintInfo", JVal.obj p1), ("Temperature", JVal.obj t1)])]),
         ("PrintInfo", JVal.obj p2)]) = .ok (JVal.obj p2) := rfl
  have hp : selectPrintInfoData (JVal.obj
      [("Data", JVal.obj [("Data", JVal.obj
          [("PrintInfo", JVal.obj p1), ("Temperature", JVal.obj t1)])]),
       ("PrintInfo", JVal.obj p2)]) = .ok (JVal.obj p2) := by
    simp only [selectPrintInfoData, hsel, exceptOkBind, htr, if_true, exceptPureEq]
  have ht : selectTempData (JVal.obj
      [("Data", JVal.obj [("Data", JVal.obj
          [("PrintInfo", JVal.obj p1), ("Temperature", JVal.obj t1)])]),
       ("PrintInfo", JVal.obj p2)]) = .ok (JVal.obj t1) := rfl
  refine ⟨hp, ht, ?_⟩
  simp only [printerStatusFromJson, hp, ht, exceptOkBind, temperatureFromDict,
    printInfoFromDict, exceptPureEq]

/-- Witness for C2 amended at concrete containers: with
`Data.Data = {PrintInfo: {Progress: 1}, Temperature: {UVTemp: 30}}` and a
top-level `PrintInfo = {Progress: 2}`, the normalized progress is 2 while
the temperature is the doubly-nested 30. -/
theorem c2_last_container_wins_witness :
    (printerStatusFromJson (JVal.obj
        [("Data", JVal.obj [("Data", JVal.obj
            [("PrintInfo", JVal.obj [("Progress", JVal.int 1)]),
             ("Temperature", JVal.obj [("UVTemp", JVal.int 30)])])]),
         ("PrintInfo", JVal.obj [("Progress", JVal.int 2)])])).print_info.progress = 2
      ∧ (printerStatusFromJson (JVal.obj
          [("Data", JVal.obj [("Data", JVal.obj
              [("PrintInfo", JVal.obj [("Progress", JVal.int 1)]),
               ("Temperature", JVal.obj [("UVTemp", JVal.int 30)])])]),
           ("PrintInfo", JVal.obj [("Progress", JVal.int 2)])])).temperature.uv_temp
        = 30 := by
  have h := c2_last_container_wins [("Progress", JVal.int 1)] [("Progress", JVal.int 2)]
    [("UVTemp", JVal.int 30)] (by simp)
  rw [h.2.2]
  exact ⟨rfl, rfl⟩

/-- C6 counterexample: the decoded reply `"a|b"` has only two pipe-delimited
fields, yet the discovery parse returns a `Printer` (with fallback address
and default identity fields) in the stats client — not `None` as claimed; in
the printer-monitor client even a UTF-8 decode failure yields the fallback
printer rather than `None`. -/
theorem c6_counterexample :
    saveDiscoveredPrinterStats "10.0.0.5" (some "a|b")
        = some { ip_address := "10.0.0.5", connection := "ElegooPrinterAPI" }
      ∧ saveDiscoveredPrinterStats "10.0.0.5" (some "a|b") ≠ none
      ∧ saveDiscoveredPrinterMon "10.0.0.5" none = fallbackPrinter "10.0.0.5" := by
  refine ⟨rfl, by simp [saveDiscoveredPrinterStats], rfl⟩

/-- C6 amended: a decode failure yields `None` only in the stats client (the
printer-monitor client returns the fallback identity instead); a reply with
`|` but fewer than 3 fields yields a `Printer` with default/fallback fields,
not `None`; and when at least 3 fields are present, positions 0..4 map to
id, name, address (kept unless empty, in which case the requested address is
substituted), model and firmware. -/
theorem c6_pipe_fields (ip s : String)
    (hbar : '|' ∈ s.data)
    (h3 : 3 ≤ (splitOnChar '|' s.data).length) :
    (parsedPrinter ip s).id = String.mk ((splitOnChar '|' s.data).getD 0 [])
      ∧ (parsedPrinter ip s).name = String.mk ((splitOnChar '|' s.data).getD 1 [])
      ∧ (String.mk ((splitOnChar '|' s.data).getD 2 []) ≠ "" →
          (parsedPrinter ip s).ip_address = String.mk ((splitOnChar '|' s.data).getD 2 []))
      ∧ (4 ≤ (splitOnChar '|' s.data).length →
          (parsedPrinter ip s).model = String.mk ((splitOnChar '|' s.data).getD 3 []))
      ∧ (5 ≤ (splitOnChar '|' s.data).length →
          (parsedPrinter ip s).firmware = String.mk ((splitOnChar '|' s.data).getD 4 []))
      ∧ saveDiscoveredPrinterStats ip (some s) = some (parsedPrinter ip s)
      ∧ saveDiscoveredPrinterMon ip (some s) = parsedPrinter ip s
      ∧ saveDiscoveredPrinterStats ip none = none
      ∧ saveDiscoveredPrinterMon ip none = fallbackPrinter ip := by
  have key : parsedPrinter ip s =
      { id := String.mk ((splitOnChar '|' s.data).getD 0 [])
        name := String.mk ((splitOnChar '|' s.data).getD 1 [])
        ip_address := if String.mk ((splitOnChar '|' s.data).getD 2 []) = "" then ip
          else String.mk ((splitOnChar '|' s.data).getD 2 [])
        model := if 4 ≤ (splitOnChar '|' s.data).length
          then String.mk ((splitOnChar '|' s.data).getD 3 []) else ""
        firmware := if 5 ≤ (splitOnChar '|' s.data).length
          then String.mk ((splitOnChar '|' s.data).getD 4 []) else ""
        connection := "ElegooPrinterAPI" } := by
    simp only [parsedPrinter, if_pos hbar, if_pos h3]
    by_cases hip : String.mk ((splitOnChar '|' s.data).getD 2 []) = ""
    · simp only [if_pos hip]
    · simp only [if_neg hip]
  refine ⟨by rw [key], by rw [key], fun h => ?_, fun h4 => ?_, fun h5 => ?_,
    rfl, rfl, rfl, rfl⟩
  · rw [key]; exact if_neg h
  · rw [key]; exact if_pos h4
  · rw [key]; exact if_pos h5

/-- Witness for C6 amended: the five-field reply
`"id1|nameA|10.0.0.7|M3|fw2"` maps positionally onto the identity record. -/
theorem c6_pipe_fields_witness :
    (parsedPrinter "10.0.0.9" "id1|nameA|10.0.0.7|M3|fw2").id = "id1"
      ∧ (parsedPrinter "10.0.0.9" "id1|nameA|10.0.0.7|M3|fw2").name = "nameA"
      ∧ (parsedPrinter "10.0.0.9" "id1|nameA|10.0.0.7|M3|fw2").ip_address = "10.0.0.7"
      ∧ (parsedPrinter "10.0.0.9" "id1|nameA|10.0.0.7|M3|fw2").firmware = "fw2" := by
  have h := c6_pipe_fields "10.0.0.9" "id1|nameA|10.0.0.7|M3|fw2" (by decide) (by decide)
  exact ⟨by rw [h.1]; decide, by rw [h.2.1]; decide, by rw [h.2.2.1 (by decide)]; decide,
    by rw [h.2.2.2.2.1 (by decide)]; decide⟩

/-- C7: an inbound message that is not valid JSON leaves the latest status
record and `last_updated` unchanged (the decode error is caught, so the
handler is a total function and the receive loop survives), and a subsequent
well-formed status message is still processed into a fresh status with a
fresh timestamp. -/
theorem c7_malformed_message_ignored (now now2 : String) (st : PrinterData)
    (d : List (String × JVal)) :
    parseResponse now st none = st
      ∧ parseResponse now2 (parseResponse now st none)
          (some (.obj (("Topic", JVal.str "sdcp/status/abc") :: d)))
        = { status := printerStatusFromJson (.obj (("Topic", JVal.str "sdcp/status/abc") :: d)),
            last_updated := now2 } :=
  ⟨rfl, rfl⟩

/-- C1 counterexample: with an address set and a handshake that never opens
within the bound, `connect` returns `True` (not the claimed `False`) and the
session ends up with `is_connected = True` in simulated mode rather than
staying disconnected. -/
theorem c1_counterexample :
    (connect none false "t0" { ip_address := some "192.168.1.50" }).1 = true
      ∧ (connect none false "t0" { ip_address := some "192.168.1.50" }).2.is_connected = true
      ∧ (connect none false "t0" { ip_address := some "192.168.1.50" }).2.simulated_mode
          = true :=
  ⟨rfl, rfl, rfl⟩

/-- C1 amended: when the open handshake does not complete within the bound,
the inner `connect_printer` does return `False` and drops the websocket
handle while leaving `is_connected` untouched — but the outer `connect`
then falls back to simulated mode: it returns `True`, sets both
`is_connected` and `simulated_mode`, and installs a synthetic printing
status. -/
theorem c1_timeout_simulated_fallback (st : MonState) (ip : String)
    (disc : Option Printer) (now : String) (hip : st.ip_address = some ip)
    (hne : ip ≠ "") :
    connectPrinter false st = (false, { st with printer_websocket := none })
      ∧ (connect disc false now st).1 = true
      ∧ (connect disc false now st).2.is_connected = true
      ∧ (connect disc false now st).2.simulated_mode = true
      ∧ (connect disc false now st).2.printer_websocket = none
      ∧ (connect disc false now st).2.printer_data
          = { status := simulatedStatus, last_updated := now } := by
  refine ⟨rfl, ?_, ?_, ?_, ?_, ?_⟩ <;>
    simp only [connect, hip, if_neg hne, connectPrinter, Bool.false_eq_true, if_false]

/-- Witness for C1 amended at a concrete disconnected monitor state. -/
theorem c1_timeout_simulated_fallback_witness :
    connectPrinter false { ip_address := some "192.168.1.50" }
        = (false, { ip_address := some "192.168.1.50" })
      ∧ (connect none false "t0" { ip_address := some "192.168.1.50" }).2.is_connected
          = true := by
  have h := c1_timeout_simulated_fallback { ip_address := some "192.168.1.50" }
    "192.168.1.50" none "t0" rfl (by decide)
  exact ⟨h.1, h.2.2.1⟩

theorem uiProgress_of_layers (p : PrintInfo) (hl : 0 < p.total_layer)
    (hc : 0 < p.current_layer) (hlt : p.current_layer < p.total_layer) :
    uiProgress p = (p.current_layer : ℚ) / (p.total_layer : ℚ) * 100
      ∧ 0 < uiProgress p ∧ uiProgress p < 100 := by
  have ht : (0 : ℚ) < (p.total_layer : ℚ) := by exact_mod_cast hl
  have hcq : (0 : ℚ) < (p.current_layer : ℚ) := by exact_mod_cast hc
  have hltq : (p.current_layer : ℚ) < (p.total_layer : ℚ) := by exact_mod_cast hlt
  have hraw : (0 : ℚ) < (p.current_layer : ℚ) / (p.total_layer : ℚ) * 100 := by positivity
  have hraw100 : (p.current_layer : ℚ) / (p.total_layer : ℚ) * 100 < 100 := by
    have h1 : (p.current_layer : ℚ) / (p.total_layer : ℚ) < 1 := (div_lt_one ht).mpr hltq
    nlinarith
  have heq : uiProgress p = (p.current_layer : ℚ) / (p.total_layer : ℚ) * 100 := by
    simp only [uiProgress, if_pos hl]
    rw [min_eq_right (le_of_lt hraw100), max_eq_right (le_of_lt hraw)]
  exact ⟨heq, heq ▸ hraw, heq ▸ hraw100⟩

/-- C3 counterexample: a record carrying `progress = 25` in its parsed
progress field, `total_time = 1000`, `remain_time = 0` and no layer data is
displayed with remaining time 0, not the claimed `1000 * 75 / 100 = 750`:
the UI recomputes progress from the layer counters and never consults the
record's own progress field. -/
theorem c3_counterexample :
    ({ is_printing := true, progress := 25, total_time := 1000 } : PrintInfo).progress = 25
      ∧ displayTimes { is_printing := true, progress := 25, total_time := 1000 }
          = some (1000, 0)
      ∧ (0 : Int) ≠ 750 := by
  refine ⟨rfl, ?_, by decide⟩
  simp [displayTimes, deriveTimes, uiProgress]

/-- C3 amended: the mutual remain/total derivation holds with progress taken
as the layer-derived value the UI computes (`current_layer / total_layer *
100`, clamped), not the record's parsed progress field; for the total-time
direction the progress must additionally be below 100 (at exactly 100 the
derivation divides by zero, see the C10 theorem); and a derived value never
replaces an explicitly parsed nonzero value. -/
theorem c3_time_derivation (p : PrintInfo)
    (hp : p.is_printing = true) (hl : 0 < p.total_layer)
    (hc : 0 < p.current_layer) (hlt : p.current_layer < p.total_layer) :
    (0 < p.total_time → p.remain_time = 0 →
        displayTimes p = some (p.total_time,
          pyTrunc ((p.total_time : ℚ) * ((100 : ℚ) - uiProgress p) / 100)))
      ∧ (0 < p.remain_time → p.total_time = 0 →
          displayTimes p
            = some (pyTrunc ((p.remain_time : ℚ) * 100 / ((100 : ℚ) - uiProgress p)),
                p.remain_time))
      ∧ (0 < p.remain_time → 0 < p.total_time →
          displayTimes p = some (p.total_time, p.remain_time)) := by
  obtain ⟨-, h0, h100⟩ := uiProgress_of_layers p hl hc hlt
  refine ⟨fun ht hr => ?_, fun hr ht => ?_, fun hr ht => ?_⟩
  · have hr1 : (if 0 < p.total_time ∧ p.remain_time = 0 ∧ 0 < uiProgress p
        then pyTrunc ((p.total_time : ℚ) * ((100 : ℚ) - uiProgress p) / 100)
        else p.remain_time)
        = pyTrunc ((p.total_time : ℚ) * ((100 : ℚ) - uiProgress p) / 100) :=
      if_pos ⟨ht, hr, h0⟩
    simp only [displayTimes, hp, if_true, deriveTimes, hr1]
    rw [if_neg (fun h => absurd h.2.1 (by omega))]
  · have hr1 : (if 0 < p.total_time ∧ p.remain_time = 0 ∧ 0 < uiProgress p
        then pyTrunc ((p.total_time : ℚ) * ((100 : ℚ) - uiProgress p) / 100)
        else p.remain_time) = p.remain_time :=
      if_neg (fun h => absurd h.1 (by omega))
    simp only [displayTimes, hp, if_true, deriveTimes, hr1]
    have hden : ¬((100 : ℚ) - uiProgress p = 0) := by
      intro he
      have h100' : (100 : ℚ) = uiProgress p := sub_eq_zero.mp he
      linarith
    rw [if_pos ⟨hr, ht, h0⟩, if_neg hden]
  · have hr1 : (if 0 < p.total_time ∧ p.remain_time = 0 ∧ 0 < uiProgress p
        then pyTrunc ((p.total_time : ℚ) * ((100 : ℚ) - uiProgress p) / 100)
        else p.remain_time) = p.remain_time :=
      if_neg (fun h => absurd h.2.1 (by omega))
    simp only [displayTimes, hp, if_true, deriveTimes, hr1]
    rw [if_neg (fun h => absurd h.2.1 (by omega))]

/-- Witness for C3 amended: with layers 1/4 (progress 25), a total of 1000
and no remaining time derives remaining 750; a remaining of 750 and no total
derives total 1000.  The records list the `PrintInfo` fields positionally:
printing flag, parsed progress, current/total layer, remain/total seconds,
task id/name, raw status code. -/
theorem c3_time_derivation_witness :
    displayTimes ⟨true, 0, 1, 4, 0, 1000, "", "", 0⟩ = some (1000, 750)
      ∧ displayTimes ⟨true, 0, 1, 4, 750, 0, "", "", 0⟩ = some (1000, 750) := by
  constructor
  · have h := (c3_time_derivation ⟨true, 0, 1, 4, 0, 1000, "", "", 0⟩
      rfl (by decide) (by decide) (by decide)).1 (by decide) rfl
    rw [h]
    have e : (((1000 : Int) : ℚ))
        * ((100 : ℚ) - uiProgress ⟨true, 0, 1, 4, 0, 1000, "", "", 0⟩) / 100 = 750 := by
      norm_num [uiProgress]
    rw [e]
    simp [pyTrunc]
  · have h := (c3_time_derivation ⟨true, 0, 1, 4, 750, 0, "", "", 0⟩
      rfl (by decide) (by decide) (by decide)).2.1 (by decide) rfl
    rw [h]
    have e : (((750 : Int) : ℚ))
        * 100 / ((100 : ℚ) - uiProgress ⟨true, 0, 1, 4, 750, 0, "", "", 0⟩) = 1000 := by
      norm_num [uiProgress]
    rw [e]
    simp [pyTrunc]

/-- C10: the payload `{"Status": 2, "CurrentLayer": 5, "TotalLayer": 5,
"RemainTime": 600}` is reachable and decodes to a printing record with
`remain_time = 600`, `total_time = 0` and layer-derived progress 100; on it
the total-time derivation divides by `100 - progress = 0` and raises
`ZeroDivisionError` (modelled as `none`), because the guard only requires
`progress > 0`, not `progress < 100`. -/
theorem c10_progress100_div_by_zero :
    (printInfoFromFields [("Status", JVal.int 2), ("CurrentLayer", JVal.int 5),
        ("TotalLayer", JVal.int 5), ("RemainTime", JVal.int 600)]).is_printing = true
      ∧ (printInfoFromFields [("Status", JVal.int 2), ("CurrentLayer", JVal.int 5),
          ("TotalLayer", JVal.int 5), ("RemainTime", JVal.int 600)]).remain_time = 600
      ∧ (printInfoFromFields [("Status", JVal.int 2), ("CurrentLayer", JVal.int 5),
          ("TotalLayer", JVal.int 5), ("RemainTime", JVal.int 600)]).total_time = 0
      ∧ uiProgress (printInfoFromFields [("Status", JVal.int 2), ("CurrentLayer", JVal.int 5),
          ("TotalLayer", JVal.int 5), ("RemainTime", JVal.int 600)]) = 100
      ∧ displayTimes (printInfoFromFields [("Status", JVal.int 2), ("CurrentLayer", JVal.int 5),
          ("TotalLayer", JVal.int 5), ("RemainTime", JVal.int 600)]) = none := by
  have hp : printInfoFromFields [("Status", JVal.int 2), ("CurrentLayer", JVal.int 5),
      ("TotalLayer", JVal.int 5), ("RemainTime", JVal.int 600)]
      = ⟨true, 0, 5, 5, 600, 0, "", "", 2⟩ := rfl
  rw [hp]
  have hprog : uiProgress ⟨true, 0, 5, 5, 600, 0, "", "", 2⟩ = 100 := by
    norm_num [uiProgress]
  refine ⟨rfl, rfl, rfl, hprog, ?_⟩
  simp only [displayTimes, if_true, deriveTimes, hprog]
  norm_num

end Streamy
